import Mathlib

/-!
Shallow embedding of the health-pattern insight analyzer and its request
handler from `supabase/functions/generate-insights/index.ts`.

Modelling conventions:
* JavaScript numbers are modelled by `ℚ` (the analyzer performs only the
  four arithmetic operations and comparisons on them).
* `Math.round x` is `⌊x + 1/2⌋`, exactly the ECMAScript definition.
* Timestamps (`recorded_at`, `created_at`) are modelled by their calendar
  date as a day index (`ℤ`): the code reads them only through
  `split('T')[0]` / `startsWith(date)` and a 24-hour shift, all of which
  depend only on the date part of a well-formed ISO timestamp.
* The `metricsByType` grouping (a `reduce` that pushes each row onto the
  array at its `metric_type` key, preserving input order) makes the group
  for a fixed type equal to the filtered subsequence of that type.
-/

namespace AuraRhythm

/-- ECMAScript `Math.round`: the integer closest to `q`, half-way cases
rounded toward positive infinity, i.e. `⌊q + 1/2⌋`. -/
def jsRound (q : ℚ) : ℤ := ⌊q + 1 / 2⌋

/-- ECMAScript `Number.prototype.toFixed(1)`: render with exactly one digit
after the decimal point, picking the nearest multiple of `1/10` (half-way
cases toward positive infinity). -/
def toFixed1 (q : ℚ) : String :=
  let n : ℤ := ⌊q * 10 + 1 / 2⌋
  let sign := if n < 0 then "-" else ""
  sign ++ toString (n.natAbs / 10) ++ "." ++ toString (n.natAbs % 10)

/-- One `health_metrics` row as consumed by the analyzer.  `recorded_at` is
the calendar date (day index) of the sample's timestamp. -/
structure HealthMetric where
  metric_type : String
  value : ℚ
  recorded_at : ℤ
deriving DecidableEq

/-- One `quick_actions_log` row of `action_type = 'context_log'`.  `tags` is
`log.data?.tags` with an absent field modelled as the empty list (the code
only performs membership tests, which agree under this convention). -/
structure ContextLog where
  tags : List String
  created_at : ℤ
deriving DecidableEq

/-- A generated insight: `title`, templated `description`, `severity`. -/
structure Insight where
  title : String
  description : String
  severity : String
deriving DecidableEq

/-- Insight titles and description templates, verbatim from the source. -/
def hrWarnTitle : String := "Elevated Heart Rate Pattern"

def hrWarnDesc (p : ℤ) : String :=
  s!"Your resting heart rate has been {p}% higher than your recent average. This could indicate increased stress, poor recovery, or recent physical activity."

def hrInfoTitle : String := "Improved Heart Rate Recovery"

def hrInfoDesc (p : ℤ) : String :=
  s!"Your resting heart rate has improved by {p}% below your recent average, suggesting better cardiovascular fitness and recovery."

def hrvWarnTitle : String := "HRV Indicates Increased Stress"

def hrvWarnDesc (p : ℤ) : String :=
  s!"Your heart rate variability has decreased by {p}%, which may indicate increased stress or reduced recovery. Consider prioritizing rest and stress management."

def hrvInfoTitle : String := "Excellent HRV Recovery"

def hrvInfoDesc (p : ℤ) : String :=
  s!"Your HRV has improved by {p}%, indicating excellent recovery and stress management. Great job maintaining your wellness routine!"

def sleepWarnTitle : String := "Consistent Sleep Deficit"

def sleepWarnDesc (short total : ℕ) : String :=
  s!"You\x27ve had insufficient sleep (< 7 hours) on {short} out of {total} recent days. Poor sleep can impact recovery, stress levels, and overall health."

def sleepInfoTitle : String := "Optimal Sleep Pattern"

def sleepInfoDesc (avg : String) : String :=
  s!"You\x27re maintaining excellent sleep habits with an average of {avg} hours per night. This supports optimal recovery and wellness."

def stressTitle : String := "Stress Impact on Recovery"

def stressDesc (p : ℤ) : String :=
  s!"Your HRV tends to be {p}% lower on days when you log feeling stressed. Consider stress management techniques like meditation or deep breathing."

def workoutTitle : String := "Exercise Improves Sleep Quality"

def workoutDesc (m : ℤ) : String :=
  s!"You sleep {m} minutes longer on average after workout days. Keep up the great exercise routine for better recovery!"

/-- `metricsByType[t]` (index.ts lines 100-105): the group of samples of
metric type `t`, in input order. -/
def groupOf (t : String) (ms : List HealthMetric) : List HealthMetric :=
  ms.filter (fun m => m.metric_type == t)

/-- `data.reduce((sum, m) => sum + m.value, 0) / data.length`. -/
def mean (ms : List HealthMetric) : ℚ :=
  (ms.map (fun m => m.value)).sum / (ms.length : ℚ)

/-- `data.slice(-3).reduce((sum, m) => sum + m.value, 0) / 3`. -/
def lastThreeMean (ms : List HealthMetric) : ℚ :=
  ((ms.drop (ms.length - 3)).map (fun m => m.value)).sum / 3

/-- Heart-rate rule (index.ts lines 108-126). -/
def heartRateRule (ms : List HealthMetric) : Option Insight :=
  let hrData := groupOf "heart_rate" ms
  if 3 < hrData.length then
    let avgHR := mean hrData
    let recentHR := lastThreeMean hrData
    if recentHR > avgHR * (11 / 10) then
      some ⟨hrWarnTitle, hrWarnDesc (jsRound ((recentHR - avgHR) / avgHR * 100)), "warning"⟩
    else if recentHR < avgHR * (9 / 10) then
      some ⟨hrInfoTitle, hrInfoDesc (jsRound ((avgHR - recentHR) / avgHR * 100)), "info"⟩
    else none
  else none

/-- HRV rule (index.ts lines 129-147). -/
def hrvRule (ms : List HealthMetric) : Option Insight :=
  let hrvData := groupOf "hrv" ms
  if 3 < hrvData.length then
    let avgHRV := mean hrvData
    let recentHRV := lastThreeMean hrvData
    if recentHRV < avgHRV * (85 / 100) then
      some ⟨hrvWarnTitle, hrvWarnDesc (jsRound ((avgHRV - recentHRV) / avgHRV * 100)), "attention"⟩
    else if recentHRV > avgHRV * (115 / 100) then
      some ⟨hrvInfoTitle, hrvInfoDesc (jsRound ((recentHRV - avgHRV) / avgHRV * 100)), "info"⟩
    else none
  else none

/-- Sleep-duration rule (index.ts lines 150-168). -/
def sleepRule (ms : List HealthMetric) : Option Insight :=
  let sleepData := groupOf "sleep_duration" ms
  if 3 < sleepData.length then
    let avgSleep := mean sleepData
    let shortSleepDays := (sleepData.filter (fun m => m.value < 7)).length
    if (shortSleepDays : ℚ) > (sleepData.length : ℚ) * (5 / 10) then
      some ⟨sleepWarnTitle, sleepWarnDesc shortSleepDays sleepData.length, "attention"⟩
    else if avgSleep ≥ 75 / 10 then
      some ⟨sleepInfoTitle, sleepInfoDesc (toFixed1 avgSleep), "info"⟩
    else none
  else none

/-- `stressedDays` (index.ts lines 172-174): dates of context entries whose
tags include "stressed". -/
def stressedDaysOf (logs : List ContextLog) : List ℤ :=
  (logs.filter (fun log => log.tags.contains "stressed")).map (fun log => log.created_at)

/-- `workoutDays` (index.ts lines 176-178): dates of context entries whose
tags include "workout" or "cardio". -/
def workoutDaysOf (logs : List ContextLog) : List ℤ :=
  (logs.filter (fun log => log.tags.contains "workout" || log.tags.contains "cardio")).map
    (fun log => log.created_at)

/-- Stress/HRV correlation rule (index.ts lines 180-198).  The truthiness
test `metricsByType.hrv` is group non-emptiness. -/
def stressCorrelationRule (ms : List HealthMetric) (logs : List ContextLog) : Option Insight :=
  let stressedDays := stressedDaysOf logs
  let hrvData := groupOf "hrv" ms
  if 0 < stressedDays.length ∧ hrvData ≠ [] then
    let stressedDayHRV := hrvData.filter (fun m => stressedDays.contains m.recorded_at)
    if 0 < stressedDayHRV.length then
      let avgStressedHRV := mean stressedDayHRV
      let allHRVAvg := mean hrvData
      if avgStressedHRV < allHRVAvg * (9 / 10) then
        some ⟨stressTitle, stressDesc (jsRound ((allHRVAvg - avgStressedHRV) / allHRVAvg * 100)), "warning"⟩
      else none
    else none
  else none

/-- Workout/sleep correlation rule (index.ts lines 200-221).  A sleep sample
is "post-workout" when the date 24 hours before it is a workout day. -/
def workoutCorrelationRule (ms : List HealthMetric) (logs : List ContextLog) : Option Insight :=
  let workoutDays := workoutDaysOf logs
  let sleepData := groupOf "sleep_duration" ms
  if 0 < workoutDays.length ∧ sleepData ≠ [] then
    let postWorkoutSleep := sleepData.filter (fun m => workoutDays.contains (m.recorded_at - 1))
    if 0 < postWorkoutSleep.length then
      let avgPostWorkoutSleep := mean postWorkoutSleep
      let allSleepAvg := mean sleepData
      if avgPostWorkoutSleep > allSleepAvg then
        some ⟨workoutTitle, workoutDesc (jsRound ((avgPostWorkoutSleep - allSleepAvg) * 60)), "info"⟩
      else none
    else none
  else none

/-- `analyzeHealthPatterns` (index.ts lines 97-223): the `insights` array is
built by pushing each rule's insight (if any) in source order; the two
correlation rules sit inside the `contextLogs && contextLogs.length > 0`
block (a `null` value behaving as the empty list). -/
def analyzeHealthPatterns (healthMetrics : List HealthMetric) (contextLogs : List ContextLog) :
    List Insight :=
  (heartRateRule healthMetrics).toList ++
    (hrvRule healthMetrics).toList ++
      (sleepRule healthMetrics).toList ++
        (if 0 < contextLogs.length then
          (stressCorrelationRule healthMetrics contextLogs).toList ++
            (workoutCorrelationRule healthMetrics contextLogs).toList
        else [])

/-- The `analyze` contract of the specification: the handler's insufficient
data guard (index.ts lines 48-55) composed with `analyzeHealthPatterns`. -/
def analyze (metrics : List HealthMetric) (contextLogs : List ContextLog) : List Insight :=
  if metrics.length < 5 then [] else analyzeHealthPatterns metrics contextLogs

/-- Possible response bodies of the serve handler: the catch-all error body
`{ error }` (HTTP 500), the insufficient-data body `{ message }` (HTTP 200),
and the success body `{ insights, message }` (HTTP 200). -/
inductive ServeResponse where
  | errorResponse (message : String)
  | insufficient (message : String)
  | success (insights : List Insight) (message : String)
deriving DecidableEq

/-- HTTP status attached to each response shape (index.ts lines 49-54, 82-87,
89-94): only the catch-all error response carries `status: 500`. -/
def ServeResponse.statusCode : ServeResponse → ℕ
  | ServeResponse.errorResponse _ => 500
  | ServeResponse.insufficient _ => 200
  | ServeResponse.success _ _ => 200

def insufficientDataMessage : String :=
  "Insufficient data for insights generation. Need at least 5 days of health data."

def generatedMessage (n : ℕ) : String :=
  s!"Generated {n} new insights based on your recent health data"

def startLogLine : String := "Analyzing health data for insights generation..."

def catchLogLine : String := "Error in generate-insights function:"

/-- The serve handler (index.ts lines 10-95), as a function of the outcomes
at its collaborator boundary, returning the response body together with the
console lines it emits.  A storage fetch whose promise rejects surfaces as
`Except.error` and is absorbed by the surrounding try/catch; a fetch that
resolves with `data: null` is `Except.ok none`.  The insight-rows insert
outcome (`insertError`) is only ever logged (index.ts lines 74-79): the
success response is built from `insights` regardless. -/
def handleRequest (userId : String)
    (metricsFetch : Except String (Option (List HealthMetric)))
    (logsFetch : Except String (Option (List ContextLog)))
    (insertError : Option String) : ServeResponse × List String :=
  if userId = "" then
    (ServeResponse.errorResponse "userId is required", [catchLogLine])
  else
    match metricsFetch with
    | Except.error e => (ServeResponse.errorResponse e, [startLogLine, catchLogLine])
    | Except.ok healthMetricsData =>
      match logsFetch with
      | Except.error e => (ServeResponse.errorResponse e, [startLogLine, catchLogLine])
      | Except.ok contextLogsData =>
        match healthMetricsData with
        | none =>
            (ServeResponse.insufficient insufficientDataMessage,
             [startLogLine, "Insufficient health data for insights"])
        | some healthMetrics =>
          if healthMetrics.length < 5 then
            (ServeResponse.insufficient insufficientDataMessage,
             [startLogLine, "Insufficient health data for insights"])
          else
            let insights := analyzeHealthPatterns healthMetrics (contextLogsData.getD [])
            let storeLog :=
              if 0 < insights.length then
                match insertError with
                | some _ => ["Error storing insights:"]
                | none => [s!"Successfully generated and stored {insights.length} insights"]
              else []
            (ServeResponse.success insights (generatedMessage insights.length),
             [startLogLine] ++ storeLog)

/-- The value an awaited query of this storage client resolves with: a
`data`/`error` pair.  The client reports query failures in-band — resolving
with `data` null and a non-null `error` — as the handler's own insert shows
by destructuring `{ error: insertError }` from the same client with no
try/catch (index.ts lines 70-74); a failed query is `⟨none, some e⟩`. -/
structure QueryResult (α : Type) where
  data : Option α
  error : Option String

/-- A resolved query at the handler's await boundary: the promise does not
reject, and the handler's destructuring (`const { data } = await ...`,
index.ts lines 33 and 40) reads only the `data` field, discarding `error`. -/
def fetchOutcome {α : Type} (r : QueryResult α) : Except String (Option α) :=
  Except.ok r.data

/-- Division instrumented with an explicit zero-divisor check: `none` marks
the division-by-zero error branch of a hypothetical checked evaluation. -/
def cdiv (x y : ℚ) : Option ℚ := if y = 0 then none else some (x / y)

/-- Heart-rate rule with every division checked, mirroring
`heartRateRule` operation for operation. -/
def heartRateRuleChecked (ms : List HealthMetric) : Option (Option Insight) :=
  let hrData := groupOf "heart_rate" ms
  if 3 < hrData.length then
    (cdiv ((hrData.map (fun m => m.value)).sum) (hrData.length : ℚ)).bind fun avgHR =>
    (cdiv (((hrData.drop (hrData.length - 3)).map (fun m => m.value)).sum) 3).bind fun recentHR =>
    if recentHR > avgHR * (11 / 10) then
      (cdiv (recentHR - avgHR) avgHR).map fun r =>
        some ⟨hrWarnTitle, hrWarnDesc (jsRound (r * 100)), "warning"⟩
    else if recentHR < avgHR * (9 / 10) then
      (cdiv (avgHR - recentHR) avgHR).map fun r =>
        some ⟨hrInfoTitle, hrInfoDesc (jsRound (r * 100)), "info"⟩
    else some none
  else some none

/-- HRV rule with every division checked. -/
def hrvRuleChecked (ms : List HealthMetric) : Option (Option Insight) :=
  let hrvData := groupOf "hrv" ms
  if 3 < hrvData.length then
    (cdiv ((hrvData.map (fun m => m.value)).sum) (hrvData.length : ℚ)).bind fun avgHRV =>
    (cdiv (((hrvData.drop (hrvData.length - 3)).map (fun m => m.value)).sum) 3).bind fun recentHRV =>
    if recentHRV < avgHRV * (85 / 100) then
      (cdiv (avgHRV - recentHRV) avgHRV).map fun r =>
        some ⟨hrvWarnTitle, hrvWarnDesc (jsRound (r * 100)), "attention"⟩
    else if recentHRV > avgHRV * (115 / 100) then
      (cdiv (recentHRV - avgHRV) avgHRV).map fun r =>
        some ⟨hrvInfoTitle, hrvInfoDesc (jsRound (r * 100)), "info"⟩
    else some none
  else some none

/-- Sleep rule with every division checked. -/
def sleepRuleChecked (ms : List HealthMetric) : Option (Option Insight) :=
  let sleepData := groupOf "sleep_duration" ms
  if 3 < sleepData.length then
    (cdiv ((sleepData.map (fun m => m.value)).sum) (sleepData.length : ℚ)).map fun avgSleep =>
      let shortSleepDays := (sleepData.filter (fun m => m.value < 7)).length
      if (shortSleepDays : ℚ) > (sleepData.length : ℚ) * (5 / 10) then
        some ⟨sleepWarnTitle, sleepWarnDesc shortSleepDays sleepData.length, "attention"⟩
      else if avgSleep ≥ 75 / 10 then
        some ⟨sleepInfoTitle, sleepInfoDesc (toFixed1 avgSleep), "info"⟩
      else none
  else some none

/-- Stress correlation rule with every division checked. -/
def stressCorrelationRuleChecked (ms : List HealthMetric) (logs : List ContextLog) :
    Option (Option Insight) :=
  let stressedDays := stressedDaysOf logs
  let hrvData := groupOf "hrv" ms
  if 0 < stressedDays.length ∧ hrvData ≠ [] then
    let stressedDayHRV := hrvData.filter (fun m => stressedDays.contains m.recorded_at)
    if 0 < stressedDayHRV.length then
      (cdiv ((stressedDayHRV.map (fun m => m.value)).sum) (stressedDayHRV.length : ℚ)).bind
        fun avgStressedHRV =>
      (cdiv ((hrvData.map (fun m => m.value)).sum) (hrvData.length : ℚ)).bind fun allHRVAvg =>
      if avgStressedHRV < allHRVAvg * (9 / 10) then
        (cdiv (allHRVAvg - avgStressedHRV) allHRVAvg).map fun r =>
          some ⟨stressTitle, stressDesc (jsRound (r * 100)), "warning"⟩
      else some none
    else some none
  else some none

/-- Workout correlation rule with every division checked. -/
def workoutCorrelationRuleChecked (ms : List HealthMetric) (logs : List ContextLog) :
    Option (Option Insight) :=
  let workoutDays := workoutDaysOf logs
  let sleepData := groupOf "sleep_duration" ms
  if 0 < workoutDays.length ∧ sleepData ≠ [] then
    let postWorkoutSleep := sleepData.filter (fun m => workoutDays.contains (m.recorded_at - 1))
    if 0 < postWorkoutSleep.length then
      (cdiv ((postWorkoutSleep.map (fun m => m.value)).sum) (postWorkoutSleep.length : ℚ)).bind
        fun avgPostWorkoutSleep =>
      (cdiv ((sleepData.map (fun m => m.value)).sum) (sleepData.length : ℚ)).map fun allSleepAvg =>
      if avgPostWorkoutSleep > allSleepAvg then
        some ⟨workoutTitle, workoutDesc (jsRound ((avgPostWorkoutSleep - allSleepAvg) * 60)), "info"⟩
      else none
    else some none
  else some none

/-- The whole analyzer with every division checked: `none` exactly when some
division in the run has a zero divisor. -/
def analyzeHealthPatternsChecked (healthMetrics : List HealthMetric)
    (contextLogs : List ContextLog) : Option (List Insight) :=
  (heartRateRuleChecked healthMetrics).bind fun r1 =>
  (hrvRuleChecked healthMetrics).bind fun r2 =>
  (sleepRuleChecked healthMetrics).bind fun r3 =>
  (if 0 < contextLogs.length then
      (stressCorrelationRuleChecked healthMetrics contextLogs).bind fun r4 =>
      (workoutCorrelationRuleChecked healthMetrics contextLogs).map fun r5 =>
      r4.toList ++ r5.toList
    else some []).map fun tail =>
  r1.toList ++ r2.toList ++ r3.toList ++ tail

/-- Boolean recognizers for each rule's insight titles (all eight titles are
pairwise distinct). -/
def isHeartRateInsight (i : Insight) : Bool :=
  i.title == hrWarnTitle || i.title == hrInfoTitle

def isHrvInsight (i : Insight) : Bool :=
  i.title == hrvWarnTitle || i.title == hrvInfoTitle

def isSleepInsight (i : Insight) : Bool :=
  i.title == sleepWarnTitle || i.title == sleepInfoTitle

def isStressCorrelationInsight (i : Insight) : Bool :=
  i.title == stressTitle

def isWorkoutCorrelationInsight (i : Insight) : Bool :=
  i.title == workoutTitle

/-! Helper lemmas. -/

lemma stressCorrelationRule_nil (ms : List HealthMetric) :
    stressCorrelationRule ms [] = none := by
  simp [stressCorrelationRule, stressedDaysOf]

lemma workoutCorrelationRule_nil (ms : List HealthMetric) :
    workoutCorrelationRule ms [] = none := by
  simp [workoutCorrelationRule, workoutDaysOf]

/-- The analyzer output is the ordered concatenation of the five rules'
emissions (the `contextLogs` non-emptiness wrapper is absorbed: on an empty
log list both correlation rules emit nothing). -/
lemma analyze_rules_concat (ms : List HealthMetric) (cl : List ContextLog) :
    analyzeHealthPatterns ms cl =
      (heartRateRule ms).toList ++ (hrvRule ms).toList ++ (sleepRule ms).toList ++
        (stressCorrelationRule ms cl).toList ++ (workoutCorrelationRule ms cl).toList := by
  unfold analyzeHealthPatterns
  by_cases h : 0 < cl.length
  · rw [if_pos h]
    simp [List.append_assoc]
  · rw [if_neg h]
    have hcl : cl = [] := List.length_eq_zero.mp (Nat.eq_zero_of_not_pos h)
    subst hcl
    rw [stressCorrelationRule_nil, workoutCorrelationRule_nil]
    simp

lemma toList_length_le_one (o : Option Insight) : o.toList.length ≤ 1 := by
  cases o <;> simp

lemma filter_toList_none {o : Option Insight} {p : Insight → Bool}
    (h : ∀ i, o = some i → p i = false) : o.toList.filter p = [] := by
  cases o with
  | none => rfl
  | some a => simp [List.filter_cons, h a rfl]

lemma filter_toList_all {o : Option Insight} {p : Insight → Bool}
    (h : ∀ i, o = some i → p i = true) : o.toList.filter p = o.toList := by
  cases o with
  | none => rfl
  | some a => simp [List.filter_cons, h a rfl]

lemma heartRateRule_title {ms : List HealthMetric} {i : Insight}
    (h : heartRateRule ms = some i) : i.title = hrWarnTitle ∨ i.title = hrInfoTitle := by
  simp only [heartRateRule] at h
  split at h
  · split at h
    · cases h; exact Or.inl rfl
    · split at h
      · cases h; exact Or.inr rfl
      · exact Option.noConfusion h
  · exact Option.noConfusion h

lemma hrvRule_title {ms : List HealthMetric} {i : Insight}
    (h : hrvRule ms = some i) : i.title = hrvWarnTitle ∨ i.title = hrvInfoTitle := by
  simp only [hrvRule] at h
  split at h
  · split at h
    · cases h; exact Or.inl rfl
    · split at h
      · cases h; exact Or.inr rfl
      · exact Option.noConfusion h
  · exact Option.noConfusion h

lemma sleepRule_title {ms : List HealthMetric} {i : Insight}
    (h : sleepRule ms = some i) : i.title = sleepWarnTitle ∨ i.title = sleepInfoTitle := by
  simp only [sleepRule] at h
  split at h
  · split at h
    · cases h; exact Or.inl rfl
    · split at h
      · cases h; exact Or.inr rfl
      · exact Option.noConfusion h
  · exact Option.noConfusion h

lemma stressCorrelationRule_title {ms : List HealthMetric} {cl : List ContextLog} {i : Insight}
    (h : stressCorrelationRule ms cl = some i) : i.title = stressTitle := by
  simp only [stressCorrelationRule] at h
  split at h
  · split at h
    · split at h
      · cases h; rfl
      · exact Option.noConfusion h
    · exact Option.noConfusion h
  · exact Option.noConfusion h

lemma workoutCorrelationRule_title {ms : List HealthMetric} {cl : List ContextLog} {i : Insight}
    (h : workoutCorrelationRule ms cl = some i) : i.title = workoutTitle := by
  simp only [workoutCorrelationRule] at h
  split at h
  · split at h
    · split at h
      · cases h; rfl
      · exact Option.noConfusion h
    · exact Option.noConfusion h
  · exact Option.noConfusion h


lemma filterOwn_hr (ms : List HealthMetric) :
    (heartRateRule ms).toList.filter isHeartRateInsight = (heartRateRule ms).toList :=
  filter_toList_all fun i hi => by
    rcases heartRateRule_title hi with h | h <;> unfold isHeartRateInsight <;> rw [h] <;> decide

lemma filterNone_hr_hrv (ms : List HealthMetric) :
    (hrvRule ms).toList.filter isHeartRateInsight = [] :=
  filter_toList_none fun i hi => by
    rcases hrvRule_title hi with h | h <;> unfold isHeartRateInsight <;> rw [h] <;> decide

lemma filterNone_hr_sleep (ms : List HealthMetric) :
    (sleepRule ms).toList.filter isHeartRateInsight = [] :=
  filter_toList_none fun i hi => by
    rcases sleepRule_title hi with h | h <;> unfold isHeartRateInsight <;> rw [h] <;> decide

lemma filterNone_hr_stress (ms : List HealthMetric) (cl : List ContextLog) :
    (stressCorrelationRule ms cl).toList.filter isHeartRateInsight = [] :=
  filter_toList_none fun i hi => by
    unfold isHeartRateInsight; rw [stressCorrelationRule_title hi]; decide

lemma filterNone_hr_workout (ms : List HealthMetric) (cl : List ContextLog) :
    (workoutCorrelationRule ms cl).toList.filter isHeartRateInsight = [] :=
  filter_toList_none fun i hi => by
    unfold isHeartRateInsight; rw [workoutCorrelationRule_title hi]; decide

lemma filterNone_hrv_hr (ms : List HealthMetric) :
    (heartRateRule ms).toList.filter isHrvInsight = [] :=
  filter_toList_none fun i hi => by
    rcases heartRateRule_title hi with h | h <;> unfold isHrvInsight <;> rw [h] <;> decide

lemma filterOwn_hrv (ms : List HealthMetric) :
    (hrvRule ms).toList.filter isHrvInsight = (hrvRule ms).toList :=
  filter_toList_all fun i hi => by
    rcases hrvRule_title hi with h | h <;> unfold isHrvInsight <;> rw [h] <;> decide

lemma filterNone_hrv_sleep (ms : List HealthMetric) :
    (sleepRule ms).toList.filter isHrvInsight = [] :=
  filter_toList_none fun i hi => by
    rcases sleepRule_title hi with h | h <;> unfold isHrvInsight <;> rw [h] <;> decide

lemma filterNone_hrv_stress (ms : List HealthMetric) (cl : List ContextLog) :
    (stressCorrelationRule ms cl).toList.filter isHrvInsight = [] :=
  filter_toList_none fun i hi => by
    unfold isHrvInsight; rw [stressCorrelationRule_title hi]; decide

lemma filterNone_hrv_workout (ms : List HealthMetric) (cl : List ContextLog) :
    (workoutCorrelationRule ms cl).toList.filter isHrvInsight = [] :=
  filter_toList_none fun i hi => by
    unfold isHrvInsight; rw [workoutCorrelationRule_title hi]; decide

lemma filterNone_sleep_hr (ms : List HealthMetric) :
    (heartRateRule ms).toList.filter isSleepInsight = [] :=
  filter_toList_none fun i hi => by
    rcases heartRateRule_title hi with h | h <;> unfold isSleepInsight <;> rw [h] <;> decide

lemma filterNone_sleep_hrv (ms : List HealthMetric) :
    (hrvRule ms).toList.filter isSleepInsight = [] :=
  filter_toList_none fun i hi => by
    rcases hrvRule_title hi with h | h <;> unfold isSleepInsight <;> rw [h] <;> decide

lemma filterOwn_sleep (ms : List HealthMetric) :
    (sleepRule ms).toList.filter isSleepInsight = (sleepRule ms).toList :=
  filter_toList_all fun i hi => by
    rcases sleepRule_title hi with h | h <;> unfold isSleepInsight <;> rw [h] <;> decide

lemma filterNone_sleep_stress (ms : List HealthMetric) (cl : List ContextLog) :
    (stressCorrelationRule ms cl).toList.filter isSleepInsight = [] :=
  filter_toList_none fun i hi => by
    unfold isSleepInsight; rw [stressCorrelationRule_title hi]; decide

lemma filterNone_sleep_workout (ms : List HealthMetric) (cl : List ContextLog) :
    (workoutCorrelationRule ms cl).toList.filter isSleepInsight = [] :=
  filter_toList_none fun i hi => by
    unfold isSleepInsight; rw [workoutCorrelationRule_title hi]; decide

lemma filterNone_stress_hr (ms : List HealthMetric) :
    (heartRateRule ms).toList.filter isStressCorrelationInsight = [] :=
  filter_toList_none fun i hi => by
    rcases heartRateRule_title hi with h | h <;> unfold isStressCorrelationInsight <;> rw [h] <;> decide

lemma filterNone_stress_hrv (ms : List HealthMetric) :
    (hrvRule ms).toList.filter isStressCorrelationInsight = [] :=
  filter_toList_none fun i hi => by
    rcases hrvRule_title hi with h | h <;> unfold isStressCorrelationInsight <;> rw [h] <;> decide

lemma filterNone_stress_sleep (ms : List HealthMetric) :
    (sleepRule ms).toList.filter isStressCorrelationInsight = [] :=
  filter_toList_none fun i hi => by
    rcases sleepRule_title hi with h | h <;> unfold isStressCorrelationInsight <;> rw [h] <;> decide

lemma filterOwn_stress (ms : List HealthMetric) (cl : List ContextLog) :
    (stressCorrelationRule ms cl).toList.filter isStressCorrelationInsight = (stressCorrelationRule ms cl).toList :=
  filter_toList_all fun i hi => by
    unfold isStressCorrelationInsight; rw [stressCorrelationRule_title hi]; decide

lemma filterNone_stress_workout (ms : List HealthMetric) (cl : List ContextLog) :
    (workoutCorrelationRule ms cl).toList.filter isStressCorrelationInsight = [] :=
  filter_toList_none fun i hi => by
    unfold isStressCorrelationInsight; rw [workoutCorrelationRule_title hi]; decide

lemma filterNone_workout_hr (ms : List HealthMetric) :
    (heartRateRule ms).toList.filter isWorkoutCorrelationInsight = [] :=
  filter_toList_none fun i hi => by
    rcases heartRateRule_title hi with h | h <;> unfold isWorkoutCorrelationInsight <;> rw [h] <;> decide

lemma filterNone_workout_hrv (ms : List HealthMetric) :
    (hrvRule ms).toList.filter isWorkoutCorrelationInsight = [] :=
  filter_toList_none fun i hi => by
    rcases hrvRule_title hi with h | h <;> unfold isWorkoutCorrelationInsight <;> rw [h] <;> decide

lemma filterNone_workout_sleep (ms : List HealthMetric) :
    (sleepRule ms).toList.filter isWorkoutCorrelationInsight = [] :=
  filter_toList_none fun i hi => by
    rcases sleepRule_title hi with h | h <;> unfold isWorkoutCorrelationInsight <;> rw [h] <;> decide

lemma filterNone_workout_stress (ms : List HealthMetric) (cl : List ContextLog) :
    (stressCorrelationRule ms cl).toList.filter isWorkoutCorrelationInsight = [] :=
  filter_toList_none fun i hi => by
    unfold isWorkoutCorrelationInsight; rw [stressCorrelationRule_title hi]; decide

lemma filterOwn_workout (ms : List HealthMetric) (cl : List ContextLog) :
    (workoutCorrelationRule ms cl).toList.filter isWorkoutCorrelationInsight = (workoutCorrelationRule ms cl).toList :=
  filter_toList_all fun i hi => by
    unfold isWorkoutCorrelationInsight; rw [workoutCorrelationRule_title hi]; decide

lemma analyze_filter_hr (ms : List HealthMetric) (cl : List ContextLog) :
    (analyzeHealthPatterns ms cl).filter isHeartRateInsight = (heartRateRule ms).toList := by
  rw [analyze_rules_concat]
  simp only [List.filter_append, filterOwn_hr, filterNone_hr_hrv, filterNone_hr_sleep, filterNone_hr_stress, filterNone_hr_workout, List.append_nil, List.nil_append]

lemma analyze_filter_hrv (ms : List HealthMetric) (cl : List ContextLog) :
    (analyzeHealthPatterns ms cl).filter isHrvInsight = (hrvRule ms).toList := by
  rw [analyze_rules_concat]
  simp only [List.filter_append, filterNone_hrv_hr, filterOwn_hrv, filterNone_hrv_sleep, filterNone_hrv_stress, filterNone_hrv_workout, List.append_nil, List.nil_append]

lemma analyze_filter_sleep (ms : List HealthMetric) (cl : List ContextLog) :
    (analyzeHealthPatterns ms cl).filter isSleepInsight = (sleepRule ms).toList := by
  rw [analyze_rules_concat]
  simp only [List.filter_append, filterNone_sleep_hr, filterNone_sleep_hrv, filterOwn_sleep, filterNone_sleep_stress, filterNone_sleep_workout, List.append_nil, List.nil_append]

lemma analyze_filter_stress (ms : List HealthMetric) (cl : List ContextLog) :
    (analyzeHealthPatterns ms cl).filter isStressCorrelationInsight = (stressCorrelationRule ms cl).toList := by
  rw [analyze_rules_concat]
  simp only [List.filter_append, filterNone_stress_hr, filterNone_stress_hrv, filterNone_stress_sleep, filterOwn_stress, filterNone_stress_workout, List.append_nil, List.nil_append]

lemma analyze_filter_workout (ms : List HealthMetric) (cl : List ContextLog) :
    (analyzeHealthPatterns ms cl).filter isWorkoutCorrelationInsight = (workoutCorrelationRule ms cl).toList := by
  rw [analyze_rules_concat]
  simp only [List.filter_append, filterNone_workout_hr, filterNone_workout_hrv, filterNone_workout_sleep, filterNone_workout_stress, filterOwn_workout, List.append_nil, List.nil_append]

lemma stressedDaysOf_ne_nil {cl : List ContextLog} (h : stressedDaysOf cl ≠ []) : cl ≠ [] := by
  intro hcl
  subst hcl
  exact h rfl

lemma workoutDaysOf_ne_nil {cl : List ContextLog} (h : workoutDaysOf cl ≠ []) : cl ≠ [] := by
  intro hcl
  subst hcl
  exact h rfl

/-! Claim theorems. -/

/-- C7: for every input, the analyzer's result is the concatenation of the
insights emitted by the five rules in the fixed evaluation order heart_rate,
hrv, sleep_duration, stress-tag-correlation, workout-tag-correlation, with no
cross-rule deduplication, ranking, or reordering. -/
theorem analyzer_is_ordered_rule_concat (ms : List HealthMetric) (cl : List ContextLog) :
    analyzeHealthPatterns ms cl =
      (heartRateRule ms).toList ++ (hrvRule ms).toList ++ (sleepRule ms).toList ++
        (stressCorrelationRule ms cl).toList ++ (workoutCorrelationRule ms cl).toList :=
  analyze_rules_concat ms cl

/-- C10: each of the five rules contributes at most one insight per run, so
the analyzer's result sequence always has length at most 5. -/
theorem analyzer_emits_at_most_five (ms : List HealthMetric) (cl : List ContextLog) :
    (analyzeHealthPatterns ms cl).length ≤ 5 := by
  rw [analyze_rules_concat]
  simp only [List.length_append]
  have h1 := toList_length_le_one (heartRateRule ms)
  have h2 := toList_length_le_one (hrvRule ms)
  have h3 := toList_length_le_one (sleepRule ms)
  have h4 := toList_length_le_one (stressCorrelationRule ms cl)
  have h5 := toList_length_le_one (workoutCorrelationRule ms cl)
  omega

/-- C1: for every metrics sequence with fewer than 5 samples and every
contextLogs sequence, the spec-level `analyze` returns the empty insight
sequence, and the request handler answers with the insufficient-data
message as a status-200 response, not as an error. -/
theorem insufficient_data_returns_empty (uid : String) (ms : List HealthMetric)
    (cl : List ContextLog) (ie : Option String) (hu : uid ≠ "") (h5 : ms.length < 5) :
    analyze ms cl = [] ∧
      (handleRequest uid (Except.ok (some ms)) (Except.ok (some cl)) ie).1 =
        ServeResponse.insufficient insufficientDataMessage ∧
      (handleRequest uid (Except.ok (some ms)) (Except.ok (some cl)) ie).1.statusCode = 200 := by
  refine ⟨?_, ?_, ?_⟩ <;>
    simp [analyze, handleRequest, hu, h5, ServeResponse.statusCode]

/-- C1 witness: a concrete run with 4 samples. -/
theorem insufficient_data_returns_empty_witness :
    analyze
        [⟨"heart_rate", 60, 0⟩, ⟨"heart_rate", 61, 1⟩, ⟨"heart_rate", 62, 2⟩,
          ⟨"heart_rate", 63, 3⟩] [⟨["stressed"], 1⟩] = [] ∧
      (handleRequest "user-1"
          (Except.ok (some [⟨"heart_rate", 60, 0⟩, ⟨"heart_rate", 61, 1⟩,
            ⟨"heart_rate", 62, 2⟩, ⟨"heart_rate", 63, 3⟩]))
          (Except.ok (some [⟨["stressed"], 1⟩])) none).1 =
        ServeResponse.insufficient insufficientDataMessage ∧
      (handleRequest "user-1"
          (Except.ok (some [⟨"heart_rate", 60, 0⟩, ⟨"heart_rate", 61, 1⟩,
            ⟨"heart_rate", 62, 2⟩, ⟨"heart_rate", 63, 3⟩]))
          (Except.ok (some [⟨["stressed"], 1⟩])) none).1.statusCode = 200 :=
  insufficient_data_returns_empty "user-1" _ _ none (by decide) (by decide)

/-- C9 counterexample: a metrics fetch that fails by resolving with an error
value (`data` null, `error` set) — the way this storage client reports query
failures, as the handler's own insert destructuring of
`{ error: insertError }` from the same client shows — is answered with the
200 insufficient-data message, not an HTTP-level request failure, refuting
the claim that whenever the metrics fetch fails the request is answered as a
request failure. -/
theorem failed_fetch_answered_as_insufficient :
    (handleRequest "user-1"
        (fetchOutcome (QueryResult.mk none (some "connection refused")))
        (fetchOutcome (QueryResult.mk (some []) none)) none).1 =
      ServeResponse.insufficient insufficientDataMessage ∧
      (handleRequest "user-1"
          (fetchOutcome (QueryResult.mk none (some "connection refused")))
          (fetchOutcome (QueryResult.mk (some []) none)) none).1.statusCode = 200 := by
  constructor <;> with_unfolding_all rfl

/-- C9 (amended): the handler separates failures at the exception level, not
at the read/write level: a metrics fetch whose awaited promise rejects is
answered as the HTTP 500 error response with no insight generation; a
metrics fetch that fails by resolving with an error value (`data` null) is
answered as the 200 insufficient-data message — not a request failure —
likewise with no insight generation attempted; and a failed insight-rows
insert is only logged, the handler still returning the 200 success response
with the full insight list and the generated-count message. -/
theorem read_write_failure_asymmetry_amended (uid e ef ei : String)
    (lf : Except String (Option (List ContextLog))) (lfo : Option (List ContextLog))
    (ie : Option String) (ms : List HealthMetric) (cl : List ContextLog)
    (hu : uid ≠ "") (h5 : ¬ ms.length < 5) :
    (handleRequest uid (Except.error e) lf ie).1 = ServeResponse.errorResponse e ∧
      (handleRequest uid (Except.error e) lf ie).1.statusCode = 500 ∧
      (handleRequest uid (fetchOutcome (QueryResult.mk none (some ef)))
          (Except.ok lfo) ie).1 = ServeResponse.insufficient insufficientDataMessage ∧
      (handleRequest uid (fetchOutcome (QueryResult.mk none (some ef)))
          (Except.ok lfo) ie).1.statusCode = 200 ∧
      (handleRequest uid (Except.ok (some ms)) (Except.ok (some cl)) ie).1 =
        ServeResponse.success (analyzeHealthPatterns ms cl)
          (generatedMessage (analyzeHealthPatterns ms cl).length) ∧
      (handleRequest uid (Except.ok (some ms)) (Except.ok (some cl)) ie).1.statusCode = 200 ∧
      (0 < (analyzeHealthPatterns ms cl).length →
        (handleRequest uid (Except.ok (some ms)) (Except.ok (some cl)) (some ei)).2 =
          [startLogLine, "Error storing insights:"]) := by
  refine ⟨?_, ?_, ?_, ?_, ?_, ?_, fun hpos => ?_⟩
  · simp [handleRequest, hu]
  · simp [handleRequest, hu, ServeResponse.statusCode]
  · simp [handleRequest, fetchOutcome, hu]
  · simp [handleRequest, fetchOutcome, hu, ServeResponse.statusCode]
  · simp [handleRequest, hu, h5]
  · simp [handleRequest, hu, h5, ServeResponse.statusCode]
  · simp [handleRequest, hu, h5, hpos]

/-- C9 witness: a concrete rejecting fetch, a concrete error-resolving fetch,
and a concrete run whose five samples generate one insight, so the insert is
attempted, fails, is logged, and the success response is unchanged. -/
theorem read_write_failure_asymmetry_amended_witness :
    (handleRequest "user-1" (Except.error "fetch rejected") (Except.ok none)
        (some "insert failed")).1 = ServeResponse.errorResponse "fetch rejected" ∧
      (handleRequest "user-1" (Except.error "fetch rejected") (Except.ok none)
        (some "insert failed")).1.statusCode = 500 ∧
      (handleRequest "user-1" (fetchOutcome (QueryResult.mk none (some "connection refused")))
          (Except.ok none) (some "insert failed")).1 =
        ServeResponse.insufficient insufficientDataMessage ∧
      (handleRequest "user-1" (fetchOutcome (QueryResult.mk none (some "connection refused")))
          (Except.ok none) (some "insert failed")).1.statusCode = 200 ∧
      (handleRequest "user-1"
          (Except.ok (some [⟨"heart_rate", 30, 0⟩, ⟨"heart_rate", 60, 1⟩,
            ⟨"heart_rate", 70, 2⟩, ⟨"heart_rate", 80, 3⟩, ⟨"sleep_duration", 8, 4⟩]))
          (Except.ok (some [])) (some "insert failed")).1 =
        ServeResponse.success
          (analyzeHealthPatterns
            [⟨"heart_rate", 30, 0⟩, ⟨"heart_rate", 60, 1⟩, ⟨"heart_rate", 70, 2⟩,
              ⟨"heart_rate", 80, 3⟩, ⟨"sleep_duration", 8, 4⟩] [])
          (generatedMessage
            (analyzeHealthPatterns
              [⟨"heart_rate", 30, 0⟩, ⟨"heart_rate", 60, 1⟩, ⟨"heart_rate", 70, 2⟩,
                ⟨"heart_rate", 80, 3⟩, ⟨"sleep_duration", 8, 4⟩] []).length) ∧
      (handleRequest "user-1"
          (Except.ok (some [⟨"heart_rate", 30, 0⟩, ⟨"heart_rate", 60, 1⟩,
            ⟨"heart_rate", 70, 2⟩, ⟨"heart_rate", 80, 3⟩, ⟨"sleep_duration", 8, 4⟩]))
          (Except.ok (some [])) (some "insert failed")).1.statusCode = 200 ∧
      (handleRequest "user-1"
          (Except.ok (some [⟨"heart_rate", 30, 0⟩, ⟨"heart_rate", 60, 1⟩,
            ⟨"heart_rate", 70, 2⟩, ⟨"heart_rate", 80, 3⟩, ⟨"sleep_duration", 8, 4⟩]))
          (Except.ok (some [])) (some "insert failed")).2 =
        [startLogLine, "Error storing insights:"] := by
  have h := read_write_failure_asymmetry_amended "user-1" "fetch rejected" "connection refused"
    "insert failed" (Except.ok none) none (some "insert failed")
    [⟨"heart_rate", 30, 0⟩, ⟨"heart_rate", 60, 1⟩, ⟨"heart_rate", 70, 2⟩,
      ⟨"heart_rate", 80, 3⟩, ⟨"sleep_duration", 8, 4⟩] []
    (by decide) (by decide)
  refine ⟨h.1, h.2.1, h.2.2.1, h.2.2.2.1, h.2.2.2.2.1, h.2.2.2.2.2.1, h.2.2.2.2.2.2 ?_⟩
  rw [show analyzeHealthPatterns
      [⟨"heart_rate", 30, 0⟩, ⟨"heart_rate", 60, 1⟩, ⟨"heart_rate", 70, 2⟩,
        ⟨"heart_rate", 80, 3⟩, ⟨"sleep_duration", 8, 4⟩] [] =
      [⟨hrWarnTitle, hrWarnDesc 17, "warning"⟩] from by with_unfolding_all rfl]
  decide

/-- C2: for every input whose heart_rate group has more than 3 samples, with
avg the group mean and recent the mean of the last 3 values: if
recent > avg × 1.1 the analyzer emits exactly one heart_rate insight, of
severity "warning", citing round((recent − avg)/avg × 100); if
recent < avg × 0.9 it emits exactly one severity-"info" insight citing
round((avg − recent)/avg × 100); otherwise no heart_rate insight. -/
theorem heart_rate_threshold_insight (ms : List HealthMetric) (cl : List ContextLog)
    (h : 3 < (groupOf "heart_rate" ms).length) :
    (analyzeHealthPatterns ms cl).filter isHeartRateInsight =
      (if lastThreeMean (groupOf "heart_rate" ms) >
          mean (groupOf "heart_rate" ms) * (11 / 10) then
        [⟨hrWarnTitle,
          hrWarnDesc (jsRound ((lastThreeMean (groupOf "heart_rate" ms) -
            mean (groupOf "heart_rate" ms)) / mean (groupOf "heart_rate" ms) * 100)),
          "warning"⟩]
      else if lastThreeMean (groupOf "heart_rate" ms) <
          mean (groupOf "heart_rate" ms) * (9 / 10) then
        [⟨hrInfoTitle,
          hrInfoDesc (jsRound ((mean (groupOf "heart_rate" ms) -
            lastThreeMean (groupOf "heart_rate" ms)) / mean (groupOf "heart_rate" ms) * 100)),
          "info"⟩]
      else []) := by
  rw [analyze_filter_hr]
  simp only [heartRateRule]
  rw [if_pos h]
  by_cases h1 : lastThreeMean (groupOf "heart_rate" ms) >
      mean (groupOf "heart_rate" ms) * (11 / 10)
  · rw [if_pos h1, if_pos h1]
    rfl
  · rw [if_neg h1, if_neg h1]
    by_cases h2 : lastThreeMean (groupOf "heart_rate" ms) <
        mean (groupOf "heart_rate" ms) * (9 / 10)
    · rw [if_pos h2, if_pos h2]
      rfl
    · rw [if_neg h2, if_neg h2]
      rfl

/-- C2 witness: heart_rate group [30, 60, 70, 80] has avg 60, recent 70 > 66,
and yields exactly the "warning" insight citing 17 percent. -/
theorem heart_rate_threshold_insight_witness :
    3 < (groupOf "heart_rate"
        [⟨"heart_rate", 30, 0⟩, ⟨"heart_rate", 60, 1⟩, ⟨"heart_rate", 70, 2⟩,
          ⟨"heart_rate", 80, 3⟩]).length ∧
      (analyzeHealthPatterns
          [⟨"heart_rate", 30, 0⟩, ⟨"heart_rate", 60, 1⟩, ⟨"heart_rate", 70, 2⟩,
            ⟨"heart_rate", 80, 3⟩] []).filter isHeartRateInsight =
        [⟨hrWarnTitle, hrWarnDesc 17, "warning"⟩] :=
  ⟨by decide,
    (heart_rate_threshold_insight
        [⟨"heart_rate", 30, 0⟩, ⟨"heart_rate", 60, 1⟩, ⟨"heart_rate", 70, 2⟩,
          ⟨"heart_rate", 80, 3⟩] [] (by decide)).trans (by with_unfolding_all rfl)⟩

/-- C3: for every input whose hrv group has more than 3 samples, with avg the
group mean and recent the mean of the last 3 values: if recent < avg × 0.85
the analyzer emits exactly one severity-"attention" hrv insight citing
round((avg − recent)/avg × 100); if recent > avg × 1.15 it emits exactly one
severity-"info" insight citing round((recent − avg)/avg × 100); otherwise no
hrv threshold insight. -/
theorem hrv_threshold_insight (ms : List HealthMetric) (cl : List ContextLog)
    (h : 3 < (groupOf "hrv" ms).length) :
    (analyzeHealthPatterns ms cl).filter isHrvInsight =
      (if lastThreeMean (groupOf "hrv" ms) < mean (groupOf "hrv" ms) * (85 / 100) then
        [⟨hrvWarnTitle,
          hrvWarnDesc (jsRound ((mean (groupOf "hrv" ms) -
            lastThreeMean (groupOf "hrv" ms)) / mean (groupOf "hrv" ms) * 100)),
          "attention"⟩]
      else if lastThreeMean (groupOf "hrv" ms) > mean (groupOf "hrv" ms) * (115 / 100) then
        [⟨hrvInfoTitle,
          hrvInfoDesc (jsRound ((lastThreeMean (groupOf "hrv" ms) -
            mean (groupOf "hrv" ms)) / mean (groupOf "hrv" ms) * 100)),
          "info"⟩]
      else []) := by
  rw [analyze_filter_hrv]
  simp only [hrvRule]
  rw [if_pos h]
  by_cases h1 : lastThreeMean (groupOf "hrv" ms) < mean (groupOf "hrv" ms) * (85 / 100)
  · rw [if_pos h1, if_pos h1]
    rfl
  · rw [if_neg h1, if_neg h1]
    by_cases h2 : lastThreeMean (groupOf "hrv" ms) > mean (groupOf "hrv" ms) * (115 / 100)
    · rw [if_pos h2, if_pos h2]
      rfl
    · rw [if_neg h2, if_neg h2]
      rfl

/-- C3 witness: hrv group [70, 40, 30, 20] has avg 40, recent 30 < 34, and
yields exactly the "attention" insight citing 25 percent. -/
theorem hrv_threshold_insight_witness :
    3 < (groupOf "hrv"
        [⟨"hrv", 70, 0⟩, ⟨"hrv", 40, 1⟩, ⟨"hrv", 30, 2⟩, ⟨"hrv", 20, 3⟩]).length ∧
      (analyzeHealthPatterns
          [⟨"hrv", 70, 0⟩, ⟨"hrv", 40, 1⟩, ⟨"hrv", 30, 2⟩, ⟨"hrv", 20, 3⟩] []).filter
        isHrvInsight = [⟨hrvWarnTitle, hrvWarnDesc 25, "attention"⟩] :=
  ⟨by decide,
    (hrv_threshold_insight
        [⟨"hrv", 70, 0⟩, ⟨"hrv", 40, 1⟩, ⟨"hrv", 30, 2⟩, ⟨"hrv", 20, 3⟩] []
        (by decide)).trans (by with_unfolding_all rfl)⟩

/-- C4: for every input whose sleep_duration group has more than 3 samples,
with avg the group mean and shortSleepDays the count of samples with value
below 7: if shortSleepDays exceeds half the group size the analyzer emits
exactly one severity-"attention" insight citing shortSleepDays out of the
group size; else if avg ≥ 7.5 it emits exactly one severity-"info" insight
citing avg formatted to one decimal place; otherwise no sleep_duration
threshold insight. -/
theorem sleep_duration_threshold_insight (ms : List HealthMetric) (cl : List ContextLog)
    (h : 3 < (groupOf "sleep_duration" ms).length) :
    (analyzeHealthPatterns ms cl).filter isSleepInsight =
      (if ((((groupOf "sleep_duration" ms).filter (fun m => m.value < 7)).length : ℚ) >
          ((groupOf "sleep_duration" ms).length : ℚ) * (5 / 10)) then
        [⟨sleepWarnTitle,
          sleepWarnDesc ((groupOf "sleep_duration" ms).filter (fun m => m.value < 7)).length
            (groupOf "sleep_duration" ms).length,
          "attention"⟩]
      else if mean (groupOf "sleep_duration" ms) ≥ 75 / 10 then
        [⟨sleepInfoTitle, sleepInfoDesc (toFixed1 (mean (groupOf "sleep_duration" ms))), "info"⟩]
      else []) := by
  rw [analyze_filter_sleep]
  simp only [sleepRule]
  rw [if_pos h]
  by_cases h1 : ((((groupOf "sleep_duration" ms).filter (fun m => m.value < 7)).length : ℚ) >
      ((groupOf "sleep_duration" ms).length : ℚ) * (5 / 10))
  · rw [if_pos h1, if_pos h1]
    rfl
  · rw [if_neg h1, if_neg h1]
    by_cases h2 : mean (groupOf "sleep_duration" ms) ≥ 75 / 10
    · rw [if_pos h2, if_pos h2]
      rfl
    · rw [if_neg h2, if_neg h2]
      rfl

/-- C4 witness: ten sleep samples, six of them below 7 hours, yield exactly
the "attention" insight citing 6 out of 10. -/
theorem sleep_duration_threshold_insight_witness :
    3 < (groupOf "sleep_duration"
        [⟨"sleep_duration", 6, 0⟩, ⟨"sleep_duration", 6, 1⟩, ⟨"sleep_duration", 6, 2⟩,
          ⟨"sleep_duration", 6, 3⟩, ⟨"sleep_duration", 6, 4⟩, ⟨"sleep_duration", 6, 5⟩,
          ⟨"sleep_duration", 9, 6⟩, ⟨"sleep_duration", 9, 7⟩, ⟨"sleep_duration", 9, 8⟩,
          ⟨"sleep_duration", 9, 9⟩]).length ∧
      (analyzeHealthPatterns
          [⟨"sleep_duration", 6, 0⟩, ⟨"sleep_duration", 6, 1⟩, ⟨"sleep_duration", 6, 2⟩,
            ⟨"sleep_duration", 6, 3⟩, ⟨"sleep_duration", 6, 4⟩, ⟨"sleep_duration", 6, 5⟩,
            ⟨"sleep_duration", 9, 6⟩, ⟨"sleep_duration", 9, 7⟩, ⟨"sleep_duration", 9, 8⟩,
            ⟨"sleep_duration", 9, 9⟩] []).filter isSleepInsight =
        [⟨sleepWarnTitle, sleepWarnDesc 6 10, "attention"⟩] :=
  ⟨by decide,
    (sleep_duration_threshold_insight
        [⟨"sleep_duration", 6, 0⟩, ⟨"sleep_duration", 6, 1⟩, ⟨"sleep_duration", 6, 2⟩,
          ⟨"sleep_duration", 6, 3⟩, ⟨"sleep_duration", 6, 4⟩, ⟨"sleep_duration", 6, 5⟩,
          ⟨"sleep_duration", 9, 6⟩, ⟨"sleep_duration", 9, 7⟩, ⟨"sleep_duration", 9, 8⟩,
          ⟨"sleep_duration", 9, 9⟩] [] (by decide)).trans (by with_unfolding_all rfl)⟩

/-- C5: a stress-tag-correlation insight is emitted exactly when the context
log list is non-empty, the stressed-day date list is non-empty, the subset of
hrv samples recorded on a stressed day is non-empty, and that subset's mean
is below 0.9 times the mean over all hrv samples; the insight has severity
"warning" and cites the integer-rounded percentage gap.  With no context
logs the rule never fires. -/
theorem stress_correlation_insight (ms : List HealthMetric) (cl : List ContextLog) :
    (analyzeHealthPatterns ms cl).filter isStressCorrelationInsight =
      (if cl ≠ [] ∧ stressedDaysOf cl ≠ [] ∧
          (groupOf "hrv" ms).filter
            (fun m => (stressedDaysOf cl).contains m.recorded_at) ≠ [] ∧
          mean ((groupOf "hrv" ms).filter
            (fun m => (stressedDaysOf cl).contains m.recorded_at)) <
            mean (groupOf "hrv" ms) * (9 / 10) then
        [⟨stressTitle,
          stressDesc (jsRound ((mean (groupOf "hrv" ms) -
            mean ((groupOf "hrv" ms).filter
              (fun m => (stressedDaysOf cl).contains m.recorded_at))) /
            mean (groupOf "hrv" ms) * 100)),
          "warning"⟩]
      else []) := by
  rw [analyze_filter_stress]
  simp only [stressCorrelationRule]
  by_cases hA : stressedDaysOf cl ≠ []
  · by_cases hS : (groupOf "hrv" ms).filter
        (fun m => (stressedDaysOf cl).contains m.recorded_at) ≠ []
    · have hB : groupOf "hrv" ms ≠ [] := by
        intro hnil
        apply hS
        rw [hnil]
        rfl
      rw [if_pos ⟨List.length_pos.mpr hA, hB⟩, if_pos (List.length_pos.mpr hS)]
      by_cases hL : mean ((groupOf "hrv" ms).filter
          (fun m => (stressedDaysOf cl).contains m.recorded_at)) <
          mean (groupOf "hrv" ms) * (9 / 10)
      · rw [if_pos hL, if_pos ⟨stressedDaysOf_ne_nil hA, hA, hS, hL⟩]
        rfl
      · rw [if_neg hL, if_neg (fun hC => hL hC.2.2.2)]
        rfl
    · by_cases hB : groupOf "hrv" ms ≠ []
      · rw [if_pos ⟨List.length_pos.mpr hA, hB⟩,
          if_neg (fun hpos => hS (List.length_pos.mp hpos)),
          if_neg (fun hC => hS hC.2.2.1)]
        rfl
      · rw [if_neg (fun hG => hB hG.2), if_neg (fun hC => hS hC.2.2.1)]
        rfl
  · rw [if_neg (fun hG => hA (List.length_pos.mp hG.1)),
      if_neg (fun hC => hA hC.2.1)]
    rfl

/-- C6: a workout-tag-correlation insight is emitted exactly when the context
log list is non-empty, the workout-day date list is non-empty, the subset of
sleep_duration samples recorded the day after a workout day is non-empty, and
that subset's mean exceeds the mean over all sleep samples; the insight has
severity "info" and cites round((avgPostWorkoutSleep − allSleepAvg) × 60)
extra minutes.  With no context logs the rule never fires. -/
theorem workout_correlation_insight (ms : List HealthMetric) (cl : List ContextLog) :
    (analyzeHealthPatterns ms cl).filter isWorkoutCorrelationInsight =
      (if cl ≠ [] ∧ workoutDaysOf cl ≠ [] ∧
          (groupOf "sleep_duration" ms).filter
            (fun m => (workoutDaysOf cl).contains (m.recorded_at - 1)) ≠ [] ∧
          mean ((groupOf "sleep_duration" ms).filter
            (fun m => (workoutDaysOf cl).contains (m.recorded_at - 1))) >
            mean (groupOf "sleep_duration" ms) then
        [⟨workoutTitle,
          workoutDesc (jsRound ((mean ((groupOf "sleep_duration" ms).filter
            (fun m => (workoutDaysOf cl).contains (m.recorded_at - 1))) -
            mean (groupOf "sleep_duration" ms)) * 60)),
          "info"⟩]
      else []) := by
  rw [analyze_filter_workout]
  simp only [workoutCorrelationRule]
  by_cases hA : workoutDaysOf cl ≠ []
  · by_cases hS : (groupOf "sleep_duration" ms).filter
        (fun m => (workoutDaysOf cl).contains (m.recorded_at - 1)) ≠ []
    · have hB : groupOf "sleep_duration" ms ≠ [] := by
        intro hnil
        apply hS
        rw [hnil]
        rfl
      rw [if_pos ⟨List.length_pos.mpr hA, hB⟩, if_pos (List.length_pos.mpr hS)]
      by_cases hL : mean ((groupOf "sleep_duration" ms).filter
          (fun m => (workoutDaysOf cl).contains (m.recorded_at - 1))) >
          mean (groupOf "sleep_duration" ms)
      · rw [if_pos hL, if_pos ⟨workoutDaysOf_ne_nil hA, hA, hS, hL⟩]
        rfl
      · rw [if_neg hL, if_neg (fun hC => hL hC.2.2.2)]
        rfl
    · by_cases hB : groupOf "sleep_duration" ms ≠ []
      · rw [if_pos ⟨List.length_pos.mpr hA, hB⟩,
          if_neg (fun hpos => hS (List.length_pos.mp hpos)),
          if_neg (fun hC => hS hC.2.2.1)]
        rfl
      · rw [if_neg (fun hG => hB hG.2), if_neg (fun hC => hS hC.2.2.1)]
        rfl
  · rw [if_neg (fun hG => hA (List.length_pos.mp hG.1)),
      if_neg (fun hC => hA hC.2.1)]
    rfl

lemma cdiv_of_ne_zero {y : ℚ} (x : ℚ) (h : y ≠ 0) : cdiv x y = some (x / y) := if_neg h

lemma heartRateRuleChecked_eq (ms : List HealthMetric)
    (h1 : 3 < (groupOf "heart_rate" ms).length → mean (groupOf "heart_rate" ms) ≠ 0) :
    heartRateRuleChecked ms = some (heartRateRule ms) := by
  simp only [heartRateRuleChecked, heartRateRule, mean, lastThreeMean] at h1 ⊢
  by_cases hg : 3 < (groupOf "heart_rate" ms).length
  · have hlen : ((groupOf "heart_rate" ms).length : ℚ) ≠ 0 := by
      have hp : (0 : ℕ) < (groupOf "heart_rate" ms).length := by omega
      exact_mod_cast hp.ne'
    rw [if_pos hg, if_pos hg, cdiv_of_ne_zero _ hlen,
      cdiv_of_ne_zero _ (by norm_num : (3 : ℚ) ≠ 0)]
    simp only [Option.some_bind]
    split
    · rw [cdiv_of_ne_zero _ (h1 hg)]
      rfl
    · split
      · rw [cdiv_of_ne_zero _ (h1 hg)]
        rfl
      · rfl
  · rw [if_neg hg, if_neg hg]

lemma hrvRuleChecked_eq (ms : List HealthMetric)
    (h2 : groupOf "hrv" ms ≠ [] → mean (groupOf "hrv" ms) ≠ 0) :
    hrvRuleChecked ms = some (hrvRule ms) := by
  simp only [hrvRuleChecked, hrvRule, mean, lastThreeMean] at h2 ⊢
  by_cases hg : 3 < (groupOf "hrv" ms).length
  · have hne : groupOf "hrv" ms ≠ [] := by
      intro hnil
      rw [hnil] at hg
      exact absurd hg (by decide)
    have hlen : ((groupOf "hrv" ms).length : ℚ) ≠ 0 := by
      have hp : (0 : ℕ) < (groupOf "hrv" ms).length := by omega
      exact_mod_cast hp.ne'
    rw [if_pos hg, if_pos hg, cdiv_of_ne_zero _ hlen,
      cdiv_of_ne_zero _ (by norm_num : (3 : ℚ) ≠ 0)]
    simp only [Option.some_bind]
    split
    · rw [cdiv_of_ne_zero _ (h2 hne)]
      rfl
    · split
      · rw [cdiv_of_ne_zero _ (h2 hne)]
        rfl
      · rfl
  · rw [if_neg hg, if_neg hg]

lemma sleepRuleChecked_eq (ms : List HealthMetric) :
    sleepRuleChecked ms = some (sleepRule ms) := by
  simp only [sleepRuleChecked, sleepRule, mean]
  by_cases hg : 3 < (groupOf "sleep_duration" ms).length
  · have hlen : ((groupOf "sleep_duration" ms).length : ℚ) ≠ 0 := by
      have hp : (0 : ℕ) < (groupOf "sleep_duration" ms).length := by omega
      exact_mod_cast hp.ne'
    rw [if_pos hg, if_pos hg, cdiv_of_ne_zero _ hlen]
    rfl
  · rw [if_neg hg, if_neg hg]

lemma stressCorrelationRuleChecked_eq (ms : List HealthMetric) (cl : List ContextLog)
    (h2 : groupOf "hrv" ms ≠ [] → mean (groupOf "hrv" ms) ≠ 0) :
    stressCorrelationRuleChecked ms cl = some (stressCorrelationRule ms cl) := by
  simp only [stressCorrelationRuleChecked, stressCorrelationRule, mean] at h2 ⊢
  by_cases hg : 0 < (stressedDaysOf cl).length ∧ groupOf "hrv" ms ≠ []
  · rw [if_pos hg, if_pos hg]
    by_cases hs : 0 < ((groupOf "hrv" ms).filter
        (fun m => (stressedDaysOf cl).contains m.recorded_at)).length
    · have hsub : ((((groupOf "hrv" ms).filter
          (fun m => (stressedDaysOf cl).contains m.recorded_at)).length : ℕ) : ℚ) ≠ 0 := by
        exact_mod_cast hs.ne'
      have hall : ((groupOf "hrv" ms).length : ℚ) ≠ 0 := by
        have hp : (0 : ℕ) < (groupOf "hrv" ms).length := List.length_pos.mpr hg.2
        exact_mod_cast hp.ne'
      rw [if_pos hs, if_pos hs, cdiv_of_ne_zero _ hsub, cdiv_of_ne_zero _ hall]
      simp only [Option.some_bind]
      split
      · rw [cdiv_of_ne_zero _ (h2 hg.2)]
        rfl
      · rfl
    · rw [if_neg hs, if_neg hs]
  · rw [if_neg hg, if_neg hg]

lemma workoutCorrelationRuleChecked_eq (ms : List HealthMetric) (cl : List ContextLog) :
    workoutCorrelationRuleChecked ms cl = some (workoutCorrelationRule ms cl) := by
  simp only [workoutCorrelationRuleChecked, workoutCorrelationRule, mean]
  by_cases hg : 0 < (workoutDaysOf cl).length ∧ groupOf "sleep_duration" ms ≠ []
  · rw [if_pos hg, if_pos hg]
    by_cases hs : 0 < ((groupOf "sleep_duration" ms).filter
        (fun m => (workoutDaysOf cl).contains (m.recorded_at - 1))).length
    · have hsub : ((((groupOf "sleep_duration" ms).filter
          (fun m => (workoutDaysOf cl).contains (m.recorded_at - 1))).length : ℕ) : ℚ) ≠ 0 := by
        exact_mod_cast hs.ne'
      have hall : ((groupOf "sleep_duration" ms).length : ℚ) ≠ 0 := by
        have hp : (0 : ℕ) < (groupOf "sleep_duration" ms).length := List.length_pos.mpr hg.2
        exact_mod_cast hp.ne'
      rw [if_pos hs, if_pos hs, cdiv_of_ne_zero _ hsub, cdiv_of_ne_zero _ hall]
      rfl
    · rw [if_neg hs, if_neg hs]
  · rw [if_neg hg, if_neg hg]

lemma analyzeChecked_eq (ms : List HealthMetric) (cl : List ContextLog)
    (h1 : 3 < (groupOf "heart_rate" ms).length → mean (groupOf "heart_rate" ms) ≠ 0)
    (h2 : groupOf "hrv" ms ≠ [] → mean (groupOf "hrv" ms) ≠ 0) :
    analyzeHealthPatternsChecked ms cl = some (analyzeHealthPatterns ms cl) := by
  unfold analyzeHealthPatternsChecked analyzeHealthPatterns
  rw [heartRateRuleChecked_eq ms h1, hrvRuleChecked_eq ms h2, sleepRuleChecked_eq ms]
  by_cases hcl : 0 < cl.length
  · rw [if_pos hcl, if_pos hcl, stressCorrelationRuleChecked_eq ms cl h2,
      workoutCorrelationRuleChecked_eq ms cl]
    rfl
  · rw [if_neg hcl, if_neg hcl]
    rfl

/-- C8 counterexample: on four heart-rate samples with values −1, −1, 1, 1
the group mean is 0, the guard (more than 3 samples) passes, the warning
branch is reached (recent mean 1/3 exceeds 0 × 1.1), and the percentage
computation divides by the zero group mean, so the division-checked analyzer
aborts: not every division the analyzer performs has a non-zero divisor. -/
theorem division_check_fails_on_zero_mean :
    analyzeHealthPatternsChecked
      [⟨"heart_rate", -1, 0⟩, ⟨"heart_rate", -1, 1⟩, ⟨"heart_rate", 1, 2⟩,
        ⟨"heart_rate", 1, 3⟩] [] = none := by
  with_unfolding_all rfl

/-- C8 (amended): every division by a group size is protected by the rules'
size guards, so division by a zero-sized group never occurs; and provided
the heart-rate group mean is non-zero whenever that group has more than 3
samples, and the hrv group mean is non-zero whenever that group is
non-empty (the divisors of the percentage computations), every division the
analyzer performs has a non-zero divisor: the division-checked analyzer
completes and agrees with the analyzer. -/
theorem division_guards_amended (ms : List HealthMetric) (cl : List ContextLog)
    (h1 : 3 < (groupOf "heart_rate" ms).length → mean (groupOf "heart_rate" ms) ≠ 0)
    (h2 : groupOf "hrv" ms ≠ [] → mean (groupOf "hrv" ms) ≠ 0) :
    analyzeHealthPatternsChecked ms cl = some (analyzeHealthPatterns ms cl) :=
  analyzeChecked_eq ms cl h1 h2

/-- C8 witness: a concrete run (heart-rate group of mean 60, no hrv samples)
on which the division-checked analyzer completes. -/
theorem division_guards_amended_witness :
    analyzeHealthPatternsChecked
      [⟨"heart_rate", 30, 0⟩, ⟨"heart_rate", 60, 1⟩, ⟨"heart_rate", 70, 2⟩,
        ⟨"heart_rate", 80, 3⟩, ⟨"sleep_duration", 8, 4⟩] [⟨["workout"], 3⟩] =
      some (analyzeHealthPatterns
        [⟨"heart_rate", 30, 0⟩, ⟨"heart_rate", 60, 1⟩, ⟨"heart_rate", 70, 2⟩,
          ⟨"heart_rate", 80, 3⟩, ⟨"sleep_duration", 8, 4⟩] [⟨["workout"], 3⟩]) :=
  division_guards_amended _ _
    (fun _ => by
      rw [show mean (groupOf "heart_rate"
          [⟨"heart_rate", 30, 0⟩, ⟨"heart_rate", 60, 1⟩, ⟨"heart_rate", 70, 2⟩,
            ⟨"heart_rate", 80, 3⟩, ⟨"sleep_duration", 8, 4⟩]) = 60 from by
        with_unfolding_all rfl]
      norm_num)
    (fun h => absurd (show groupOf "hrv"
        [⟨"heart_rate", 30, 0⟩, ⟨"heart_rate", 60, 1⟩, ⟨"heart_rate", 70, 2⟩,
          ⟨"heart_rate", 80, 3⟩, ⟨"sleep_duration", 8, 4⟩] = [] from by
      with_unfolding_all rfl) h)

end AuraRhythm
